import Mathlib

/-
  Verification development for the frame-assembly / layout engine of
  SpriteSheetMaker (src/modules/combine_frames.py).

  Modelling conventions:
  * Python integers are modelled as `Int` (arbitrary precision); image
    dimensions coming from the decoder are nonnegative, which appears as
    explicit hypotheses where proofs need it.
  * `calc_align_offset` computes `(large - small) / 2.0` in floating point
    and truncates with `int(...)`; for operands below 2^53 this is exact
    division-by-two followed by truncation toward zero, i.e. `Int.tdiv _ 2`.
  * PIL objects are modelled by records of the fields the engine reads:
    an image is its width, height, pixel mode and format; a created canvas
    is its dimensions, pixel mode and the ordered list of draw/paste
    operations applied to it.  Saving to disk, folder creation and the
    font object are I/O collaborators outside the model.
  * `font.getbbox` is an external text-measurement facility; it enters the
    model as an oracle `getbbox : String → Int × Int × Int × Int`.
  * Action folders reach the row builder already parsed and sorted: the
    numeric-prefix sort of `assemble_images` (line 183) is order-preserving
    input preparation, so the model receives `List ActionFolder` with the
    label part of each folder name and the frames in ascending numeric
    filename order.
  * Prints carry `datetime.now()`; they are modelled by a log component fed
    a `now : Nat` clock value, kept separate from the canvas data, so that
    clock-independence of the canvas is a provable statement.
  * A Python `for chunk_idx in range(0, len, step)` loop is modelled through
    `pyRange`, the list of indices of `range(0, stop, step)` for `step > 0`;
    `range` with step 0 raises `ValueError`, modelled as an `Except.error`.
-/

-- ---------------------------------------------------------------------------
-- Enums (combine_frames.py lines 13-32)
-- ---------------------------------------------------------------------------

inductive SpriteAlign where
  | TOP_LEFT | TOP_CENTER | TOP_RIGHT
  | MIDDLE_LEFT | MIDDLE_CENTER | MIDDLE_RIGHT
  | BOTTOM_LEFT | BOTTOM_CENTER | BOTTOM_RIGHT
deriving DecidableEq, Repr

inductive SpriteConsistency where
  | INDIVIDUAL | ROW | ALL
deriving DecidableEq, Repr

inductive CombineMode where
  | IMAGES | STRIPS | SHEET
deriving DecidableEq, Repr

-- Constants (combine_frames.py lines 8-9)

def DEFAULT_COLOR_MODE : String := "RGBA"

def DEFAULT_FILE_FORMAT : String := "PNG"

-- ---------------------------------------------------------------------------
-- Data model
-- ---------------------------------------------------------------------------

/-- A loaded PIL image, reduced to the fields the assembly engine reads. -/
structure Img where
  width : Int
  height : Int
  mode : String
  format : String
deriving DecidableEq, Repr

/-- RowData (combine_frames.py lines 36-45). -/
structure RowData where
  label_text : String
  label_width : Int
  label_height : Int
  label_offset : Int × Int
  images : List Img
  img_accum_width : Int
  img_widest : Int
  img_tallest : Int
deriving DecidableEq, Repr

/-- AssembleParam (combine_frames.py lines 47-58); the two path fields are
I/O collaborators and are not part of the layout model.
`surrounding_margin` is (top, right, bottom, left). -/
structure AssembleParam where
  font_size : Int
  surrounding_margin : Int × Int × Int × Int
  label_margin : Int
  image_margin : Int
  consistency : SpriteConsistency
  align : SpriteAlign
  combine_mode : CombineMode
  max_frames_per_row : Int
deriving DecidableEq, Repr

/-- One action subfolder of the input directory, after the name
`<index>_<label>` has been split: the label part and the frame images in
ascending numeric filename order. -/
structure ActionFolder where
  label : String
  images : List Img
deriving DecidableEq, Repr

-- ---------------------------------------------------------------------------
-- Alignment calculator (combine_frames.py lines 153-177)
-- ---------------------------------------------------------------------------

/-- calc_align_offset: both offsets start at 0.0, are reassigned by the
membership tests on the align value, and are truncated to int at the end.
The float division by 2.0 followed by int() is truncation toward zero. -/
def calc_align_offset (align : SpriteAlign) (large_width large_height : Int)
    (small_width small_height : Int) : Int × Int :=
  let x_offset : Int :=
    if align ∈ [SpriteAlign.TOP_LEFT, SpriteAlign.MIDDLE_LEFT, SpriteAlign.BOTTOM_LEFT] then
      0
    else if align ∈ [SpriteAlign.TOP_CENTER, SpriteAlign.MIDDLE_CENTER, SpriteAlign.BOTTOM_CENTER] then
      Int.tdiv (large_width - small_width) 2
    else if align ∈ [SpriteAlign.TOP_RIGHT, SpriteAlign.MIDDLE_RIGHT, SpriteAlign.BOTTOM_RIGHT] then
      large_width - small_width
    else 0
  let y_offset : Int :=
    if align ∈ [SpriteAlign.TOP_LEFT, SpriteAlign.TOP_CENTER, SpriteAlign.TOP_RIGHT] then
      0
    else if align ∈ [SpriteAlign.MIDDLE_LEFT, SpriteAlign.MIDDLE_CENTER, SpriteAlign.MIDDLE_RIGHT] then
      Int.tdiv (large_height - small_height) 2
    else if align ∈ [SpriteAlign.BOTTOM_LEFT, SpriteAlign.BOTTOM_CENTER, SpriteAlign.BOTTOM_RIGHT] then
      large_height - small_height
    else 0
  (x_offset, y_offset)

-- ---------------------------------------------------------------------------
-- Cell size per output mode
-- ---------------------------------------------------------------------------

/-- Cell box used by SHEET mode for one frame
(combine_frames.py lines 325-330): the default assignment is
(img.width, row.img_tallest), reassigned for ROW and ALL. -/
def sheetCell (consistency : SpriteConsistency) (img : Img) (row : RowData)
    (global_img_widest global_img_tallest : Int) : Int × Int :=
  if consistency = SpriteConsistency.ROW then
    (row.img_widest, row.img_tallest)
  else if consistency = SpriteConsistency.ALL then
    (global_img_widest, global_img_tallest)
  else
    (img.width, row.img_tallest)

/-- Cell box used by STRIPS mode for one frame
(combine_frames.py lines 424-428): same text as the SHEET-mode block. -/
def stripsCell (consistency : SpriteConsistency) (img : Img) (row : RowData)
    (global_img_widest global_img_tallest : Int) : Int × Int :=
  if consistency = SpriteConsistency.ROW then
    (row.img_widest, row.img_tallest)
  else if consistency = SpriteConsistency.ALL then
    (global_img_widest, global_img_tallest)
  else
    (img.width, row.img_tallest)

/-- Cell box used by IMAGES mode for one frame
(combine_frames.py lines 490-494): here the default assignment is
(img.width, img.height) — the frame's own height, not the row's tallest. -/
def imagesCell (consistency : SpriteConsistency) (img : Img) (row : RowData)
    (global_img_widest global_img_tallest : Int) : Int × Int :=
  if consistency = SpriteConsistency.ROW then
    (row.img_widest, row.img_tallest)
  else if consistency = SpriteConsistency.ALL then
    (global_img_widest, global_img_tallest)
  else
    (img.width, img.height)

-- ---------------------------------------------------------------------------
-- Row builder (assemble_images, combine_frames.py lines 190-242)
-- ---------------------------------------------------------------------------

/-- Index list of Python `range(0, stop, step)` for a positive step:
`(stop + step - 1) / step` is the documented element count
`(stop - start + step - 1) // step`.  The engine never evaluates this with
step 0: that case raises `ValueError` before the loop runs and is modelled
by the `Except.error` branch of `actionRows`. -/
def pyRange (stop step : Nat) : List Nat :=
  (List.range ((stop + step - 1) / step)).map (fun j => j * step)

/-- Row data for one chunk (combine_frames.py lines 220-242): the chunk at
offset 0 keeps the action's label, later chunks get an empty label and zero
label metrics; the per-row aggregates accumulate over the chunk from 0. -/
def mkRowData (label_text : String) (label_width label_height : Int)
    (label_offset : Int × Int) (is_first : Bool) (chunk : List Img) : RowData :=
  { label_text := if is_first then label_text else ""
    label_width := if is_first then label_width else 0
    label_height := if is_first then label_height else 0
    label_offset := if is_first then label_offset else (0, 0)
    images := chunk
    img_accum_width := (chunk.map (fun im => im.width)).sum
    img_widest := chunk.foldl (fun a im => max a im.width) 0
    img_tallest := chunk.foldl (fun a im => max a im.height) 0 }

/-- The chunking loop of one action (combine_frames.py lines 215-242):
`max_per_row` is `max_frames_per_row` when positive, else the frame count;
when it is 0 (no frames and no limit) Python's `range(0, 0, 0)` raises
`ValueError: range() arg 3 must not be zero`. -/
def actionRows (param : AssembleParam) (label_text : String)
    (label_width label_height : Int) (label_offset : Int × Int)
    (all_images : List Img) : Except String (List RowData) :=
  let max_per_row : Int :=
    if param.max_frames_per_row > 0 then param.max_frames_per_row
    else (all_images.length : Int)
  if max_per_row = 0 then
    Except.error "ValueError: range() arg 3 must not be zero"
  else
    Except.ok ((pyRange all_images.length max_per_row.toNat).map (fun chunk_idx =>
      mkRowData label_text label_width label_height label_offset (chunk_idx == 0)
        ((all_images.drop chunk_idx).take max_per_row.toNat)))

/-- The per-folder loop of assemble_images (combine_frames.py lines 194-242):
label metrics from the bbox oracle (skipped when font_size is 0), running
global widest/tallest over every loaded image, rows appended per chunk. -/
def assembleRowsGo (getbbox : String → Int × Int × Int × Int)
    (param : AssembleParam) :
    List ActionFolder → List RowData → Int → Int →
    Except String (List RowData × Int × Int)
  | [], rows, global_img_widest, global_img_tallest =>
    Except.ok (rows, global_img_widest, global_img_tallest)
  | folder :: rest, rows, global_img_widest, global_img_tallest =>
    let label_text := folder.label
    let label_bbox := if param.font_size = 0 then ((0 : Int), (0 : Int), (0 : Int), (0 : Int))
      else getbbox label_text
    let label_width := label_bbox.2.2.1 - label_bbox.1
    let label_height := label_bbox.2.2.2 - label_bbox.2.1
    let label_offset : Int × Int := (0, -label_bbox.2.1)
    let gw := folder.images.foldl (fun a im => max a im.width) global_img_widest
    let gt := folder.images.foldl (fun a im => max a im.height) global_img_tallest
    match actionRows param label_text label_width label_height label_offset folder.images with
    | Except.error e => Except.error e
    | Except.ok newRows => assembleRowsGo getbbox param rest (rows ++ newRows) gw gt

/-- Rows and global aggregates produced by assemble_images before it
dispatches on combine_mode. -/
def assembleRows (getbbox : String → Int × Int × Int × Int)
    (param : AssembleParam) (action_folders : List ActionFolder) :
    Except String (List RowData × Int × Int) :=
  assembleRowsGo getbbox param action_folders [] 0 0

-- ---------------------------------------------------------------------------
-- SHEET mode (combine_into_sheet, combine_frames.py lines 253-357)
-- ---------------------------------------------------------------------------

/-- Row extent used by the dimension pass (combine_frames.py lines 267-278):
row width and row height per consistency policy. -/
def sheetRowExtent (param : AssembleParam) (row : RowData)
    (global_img_widest global_img_tallest : Int) : Int × Int :=
  let img_count : Int := row.images.length
  let gaps := param.image_margin * (img_count - 1)
  match param.consistency with
  | SpriteConsistency.INDIVIDUAL => (row.img_accum_width + gaps, row.img_tallest)
  | SpriteConsistency.ROW => (row.img_widest * img_count + gaps, row.img_tallest)
  | SpriteConsistency.ALL => (global_img_widest * img_count + gaps, global_img_tallest)

/-- The dimension loop of combine_into_sheet (lines 262-288): the running
(sheet_width, sheet_height, row_count) triple.  Width folds
max(sheet_width, row_width, label_width) from 0; height adds the row height,
plus label height and label margin when the font is enabled, plus an extra
label margin for every row after the first when the font is enabled. -/
def sheetDimsCore (param : AssembleParam) (rows : List RowData)
    (global_img_widest global_img_tallest : Int) : Int × Int × Int :=
  rows.foldl (fun acc row =>
    let extent := sheetRowExtent param row global_img_widest global_img_tallest
    let w := max (max acc.1 extent.1) row.label_width
    let h := acc.2.1 + extent.2 +
      (if param.font_size ≠ 0 then row.label_height + param.label_margin else 0)
    let h := if acc.2.2 ≠ 0 ∧ param.font_size ≠ 0 then h + param.label_margin else h
    (w, h, acc.2.2 + 1)) (0, 0, 0)

/-- Sheet dimensions after the surrounding margins are added
(combine_frames.py lines 292-293): width gets right + left, height gets
top + bottom. -/
def sheetDims (param : AssembleParam) (rows : List RowData)
    (global_img_widest global_img_tallest : Int) : Int × Int :=
  let core := sheetDimsCore param rows global_img_widest global_img_tallest
  (core.1 + param.surrounding_margin.2.1 + param.surrounding_margin.2.2.2,
   core.2.1 + param.surrounding_margin.1 + param.surrounding_margin.2.2.1)

/-- One image pasted onto a canvas: its top-left position and the image. -/
structure PasteOp where
  x : Int
  y : Int
  img : Img
deriving DecidableEq, Repr

/-- One label drawn onto a canvas: its position and text. -/
structure LabelOp where
  x : Int
  y : Int
  text : String
deriving DecidableEq, Repr

/-- The paint loop of combine_into_sheet (lines 305-351): paste_height starts
at the top margin; each row draws its label when the font is enabled
(advancing by label height + label margin), pastes each image at
paste_width + offset within its cell (advancing paste_width by cell width +
image margin), and finally advances paste_height by the row's cell height +
label margin — unconditionally, even when the font is disabled. -/
def sheetPaint (param : AssembleParam) (rows : List RowData)
    (global_img_widest global_img_tallest : Int) : List LabelOp × List PasteOp :=
  let fin := rows.foldl (fun (acc : Int × List LabelOp × List PasteOp) row =>
    let paste_width := param.surrounding_margin.2.2.2
    let labeled : Int × List LabelOp :=
      if param.font_size ≠ 0 then
        (acc.1 + row.label_height + param.label_margin,
         acc.2.1 ++ [{ x := paste_width + row.label_offset.1,
                       y := acc.1 + row.label_offset.2,
                       text := row.label_text }])
      else (acc.1, acc.2.1)
    let paste_height := labeled.1
    let inner := row.images.foldl (fun (acc2 : Int × List PasteOp) img =>
      let cell := sheetCell param.consistency img row global_img_widest global_img_tallest
      let off := calc_align_offset param.align cell.1 cell.2 img.width img.height
      (acc2.1 + cell.1 + param.image_margin,
       acc2.2 ++ [{ x := acc2.1 + off.1, y := paste_height + off.2, img := img }]))
      (paste_width, acc.2.2)
    let next_height :=
      match param.consistency with
      | SpriteConsistency.INDIVIDUAL => paste_height + row.img_tallest + param.label_margin
      | SpriteConsistency.ROW => paste_height + row.img_tallest + param.label_margin
      | SpriteConsistency.ALL => paste_height + global_img_tallest + param.label_margin
    (next_height, labeled.2, inner.2)) (param.surrounding_margin.1, [], [])
  (fin.2.1, fin.2.2)

/-- A created sheet canvas: dimensions, pixel mode, and the ordered draw and
paste operations applied to it. -/
structure Sheet where
  width : Int
  height : Int
  mode : String
  labels : List LabelOp
  pastes : List PasteOp
deriving DecidableEq, Repr

/-- A print line `[SpriteSheetMaker {datetime.now()}] msg`, with the clock
value standing in for the timestamp. -/
def logLine (now : Nat) (msg : String) : String :=
  "[SpriteSheetMaker " ++ toString now ++ "] " ++ msg

/-- The prints of combine_into_sheet, the only consumers of the clock. -/
def sheetLog (now : Nat) (s : Sheet) : List String :=
  logLine now "Creating sprite sheet" ::
  (s.labels.map (fun l => logLine now ("Addded label " ++ l.text)) ++
   (s.pastes.map (fun _ => logLine now "Addded image of frame") ++
    [logLine now "Saving sprite sheet", logLine now "Successfully saved sprite sheet"]))

/-- combine_into_sheet (combine_frames.py lines 253-357): computes the sheet
dimensions, reads `rows[0]` — an IndexError on an empty row list — takes the
canvas pixel mode from the first row's first image or DEFAULT_COLOR_MODE when
that row has no images, then paints labels and images. -/
def combine_into_sheet (now : Nat) (param : AssembleParam) (rows : List RowData)
    (global_img_widest global_img_tallest : Int) :
    Except String (Sheet × List String) :=
  let dims := sheetDims param rows global_img_widest global_img_tallest
  match rows with
  | [] => Except.error "IndexError: list index out of range"
  | row0 :: _ =>
    let img_mode := match row0.images with
      | [] => DEFAULT_COLOR_MODE
      | im :: _ => im.mode
    let paint := sheetPaint param rows global_img_widest global_img_tallest
    let s : Sheet := { width := dims.1, height := dims.2, mode := img_mode,
                       labels := paint.1, pastes := paint.2 }
    Except.ok (s, sheetLog now s)

-- ---------------------------------------------------------------------------
-- STRIPS mode (combine_into_strips, combine_frames.py lines 359-457)
-- ---------------------------------------------------------------------------

/-- Python's `str.lower()` restricted to ASCII, the alphabet of the image
format names it is applied to. -/
def pyCharLower (c : Char) : Char :=
  if 'A' ≤ c ∧ c ≤ 'Z' then Char.ofNat (c.toNat + 32) else c

def pyLower (s : String) : String := String.mk (s.data.map pyCharLower)

/-- Extension of a strip file (combine_frames.py line 443): the first image's
format, or DEFAULT_FILE_FORMAT for a row without images, lowercased at use. -/
def stripExt (row : RowData) : String :=
  pyLower (match row.images with
    | [] => DEFAULT_FILE_FORMAT
    | im :: _ => im.format)

/-- Strip dimensions for one row (combine_frames.py lines 385-400). -/
def stripDims (param : AssembleParam) (row : RowData)
    (global_img_widest global_img_tallest : Int) : Int × Int :=
  let extent := sheetRowExtent param row global_img_widest global_img_tallest
  (param.surrounding_margin.2.2.2 + max extent.1 row.label_width + param.surrounding_margin.2.1,
   param.surrounding_margin.1 + row.label_height + param.label_margin + extent.2 +
     param.surrounding_margin.2.2.1)

/-- A saved strip file: its name within the output folder, canvas dimensions
and pixel mode. -/
structure StripOut where
  filename : String
  width : Int
  height : Int
  mode : String
deriving DecidableEq, Repr

/-- The per-row loop of combine_into_strips (lines 384-457) with the
label_counters dict as a count function (0 meaning absent): a base label not
yet seen is used as-is and its counter set to 1; a seen one has its counter
bumped first and the new value appended as `_<counter>`. -/
def stripsGo (param : AssembleParam) (global_img_widest global_img_tallest : Int)
    (label_counters : String → Nat) : List RowData → List StripOut
  | [] => []
  | row :: rest =>
    let dims := stripDims param row global_img_widest global_img_tallest
    let img_mode := match row.images with
      | [] => DEFAULT_COLOR_MODE
      | im :: _ => im.mode
    let base_label := if row.label_text = "" then "strip" else row.label_text
    let seen := label_counters base_label
    let file_label :=
      if seen = 0 then base_label
      else base_label ++ "_" ++ toString (seen + 1)
    { filename := file_label ++ "." ++ stripExt row,
      width := dims.1, height := dims.2, mode := img_mode } ::
      stripsGo param global_img_widest global_img_tallest
        (fun s => if s = base_label then seen + 1 else label_counters s) rest

def combine_into_strips (param : AssembleParam) (rows : List RowData)
    (global_img_widest global_img_tallest : Int) : List StripOut :=
  stripsGo param global_img_widest global_img_tallest (fun _ => 0) rows

-- ---------------------------------------------------------------------------
-- IMAGES mode (combine_into_images, combine_frames.py lines 459-521)
-- ---------------------------------------------------------------------------

/-- A saved per-frame image: row folder name, file name within it, canvas
dimensions, and the paste position of the original frame. -/
structure ImageOut where
  folder : String
  filename : String
  width : Int
  height : Int
  x : Int
  y : Int
  img : Img
deriving DecidableEq, Repr

/-- Output of combine_into_images for one row (lines 480-521): folder
`<rowIndex>_<label>`, one file `<frameIndex>.<ext>` per frame, canvas sized
cell + margins, frame pasted at alignment offset + margins. -/
def imageRowOuts (param : AssembleParam) (row_count : Nat) (row : RowData)
    (global_img_widest global_img_tallest : Int) : List ImageOut :=
  let row_folder := toString row_count ++ "_" ++ row.label_text
  (row.images.enum).map (fun pair =>
    let img := pair.2
    let cell := imagesCell param.consistency img row global_img_widest global_img_tallest
    let new_width := param.surrounding_margin.2.2.2 + cell.1 + param.surrounding_margin.2.1
    let new_height := param.surrounding_margin.1 + cell.2 + param.surrounding_margin.2.2.1
    let off := calc_align_offset param.align cell.1 cell.2 img.width img.height
    { folder := row_folder,
      filename := toString pair.1 ++ "." ++ pyLower img.format,
      width := new_width, height := new_height,
      x := off.1 + param.surrounding_margin.2.2.2,
      y := off.2 + param.surrounding_margin.1,
      img := img })

def combine_into_images (param : AssembleParam) (rows : List RowData)
    (global_img_widest global_img_tallest : Int) : List ImageOut :=
  (rows.enum).flatMap (fun pair =>
    imageRowOuts param pair.1 pair.2 global_img_widest global_img_tallest)

-- ---------------------------------------------------------------------------
-- Orchestrator (assemble_images, combine_frames.py lines 179-251)
-- ---------------------------------------------------------------------------

/-- What one assemble_images call produced. -/
inductive AssembleOutput where
  | sheet (s : Sheet) (log : List String)
  | strips (files : List StripOut)
  | images (files : List ImageOut)
deriving Repr

deriving instance DecidableEq for Except

deriving instance DecidableEq for AssembleOutput

/-- assemble_images: builds the rows and global aggregates, then dispatches
on combine_mode. -/
def assemble_images (now : Nat) (getbbox : String → Int × Int × Int × Int)
    (param : AssembleParam) (action_folders : List ActionFolder) :
    Except String AssembleOutput :=
  match assembleRows getbbox param action_folders with
  | Except.error e => Except.error e
  | Except.ok (rows, gw, gt) =>
    match param.combine_mode with
    | CombineMode.SHEET =>
      match combine_into_sheet now param rows gw gt with
      | Except.error e => Except.error e
      | Except.ok (s, log) => Except.ok (AssembleOutput.sheet s log)
    | CombineMode.STRIPS =>
      Except.ok (AssembleOutput.strips (combine_into_strips param rows gw gt))
    | CombineMode.IMAGES =>
      Except.ok (AssembleOutput.images (combine_into_images param rows gw gt))

/-- The canvas part of a SHEET-mode result, with the log stripped. -/
def canvasOf : AssembleOutput → Option Sheet
  | AssembleOutput.sheet s _ => some s
  | AssembleOutput.strips _ => none
  | AssembleOutput.images _ => none

-- ---------------------------------------------------------------------------
-- Specification-side definitions (written from the spec's words, to be
-- compared with the embedded code)
-- ---------------------------------------------------------------------------

/-- Horizontal offset per the spec: LEFT→0, CENTER→truncation of
(containerWidth - contentWidth)/2, RIGHT→containerWidth - contentWidth. -/
def specAlignX (align : SpriteAlign) (containerWidth contentWidth : Int) : Int :=
  match align with
  | SpriteAlign.TOP_LEFT | SpriteAlign.MIDDLE_LEFT | SpriteAlign.BOTTOM_LEFT => 0
  | SpriteAlign.TOP_CENTER | SpriteAlign.MIDDLE_CENTER | SpriteAlign.BOTTOM_CENTER =>
    Int.tdiv (containerWidth - contentWidth) 2
  | SpriteAlign.TOP_RIGHT | SpriteAlign.MIDDLE_RIGHT | SpriteAlign.BOTTOM_RIGHT =>
    containerWidth - contentWidth

/-- Vertical offset per the spec: TOP→0, MIDDLE→truncation of
(containerHeight - contentHeight)/2, BOTTOM→containerHeight - contentHeight. -/
def specAlignY (align : SpriteAlign) (containerHeight contentHeight : Int) : Int :=
  match align with
  | SpriteAlign.TOP_LEFT | SpriteAlign.TOP_CENTER | SpriteAlign.TOP_RIGHT => 0
  | SpriteAlign.MIDDLE_LEFT | SpriteAlign.MIDDLE_CENTER | SpriteAlign.MIDDLE_RIGHT =>
    Int.tdiv (containerHeight - contentHeight) 2
  | SpriteAlign.BOTTOM_LEFT | SpriteAlign.BOTTOM_CENTER | SpriteAlign.BOTTOM_RIGHT =>
    containerHeight - contentHeight

/-- Maximum of a nonempty list of integers (the [] case is irrelevant). -/
def maxListInt : List Int → Int
  | [] => 0
  | x :: xs => xs.foldl max x

/-- The spec's "row's total cell-width sum": the sum over the row's frames of
their cell widths under the consistency policy. -/
def specCellWidthSum (param : AssembleParam) (row : RowData)
    (global_img_widest global_img_tallest : Int) : Int :=
  (row.images.map (fun im =>
    (sheetCell param.consistency im row global_img_widest global_img_tallest).1)).sum

/-- The spec's per-row width contribution: cell-width sum plus inter-image
gaps, compared against the label width. -/
def specRowWidth (param : AssembleParam) (row : RowData)
    (global_img_widest global_img_tallest : Int) : Int :=
  max (specCellWidthSum param row global_img_widest global_img_tallest +
        param.image_margin * ((row.images.length : Int) - 1))
      row.label_width

/-- The spec's SHEET canvas width: max over rows of the row width
contribution, plus the left and right surrounding margins. -/
def specSheetWidth (param : AssembleParam) (rows : List RowData)
    (global_img_widest global_img_tallest : Int) : Int :=
  maxListInt (rows.map (fun row =>
    specRowWidth param row global_img_widest global_img_tallest)) +
  param.surrounding_margin.2.1 + param.surrounding_margin.2.2.2

-- ---------------------------------------------------------------------------
-- Shared concrete fixtures
-- ---------------------------------------------------------------------------

/-- A bbox oracle; irrelevant whenever font_size = 0. -/
def zeroBbox : String → Int × Int × Int × Int := fun _ => (0, 0, 0, 0)

/-- A convenient parameter record for concrete runs: font disabled, all
margins 0, INDIVIDUAL consistency, TOP_LEFT alignment, SHEET mode,
unlimited frames per row. -/
def baseParam : AssembleParam :=
  { font_size := 0
    surrounding_margin := (0, 0, 0, 0)
    label_margin := 0
    image_margin := 0
    consistency := SpriteConsistency.INDIVIDUAL
    align := SpriteAlign.TOP_LEFT
    combine_mode := CombineMode.SHEET
    max_frames_per_row := 0 }

-- ---------------------------------------------------------------------------
-- Helper lemmas
-- ---------------------------------------------------------------------------

theorem tdiv2_bounds (a : Int) (h : 0 ≤ a) : 0 ≤ a.tdiv 2 ∧ a.tdiv 2 ≤ a := by
  rw [Int.tdiv_eq_ediv h (by norm_num)]
  omega

-- ---------------------------------------------------------------------------
-- C7: alignment calculator
-- ---------------------------------------------------------------------------

/-- C7: for every align value and container ≥ content ≥ 0 dimensions,
calc_align_offset returns exactly the spec's LEFT/TOP→0,
CENTER/MIDDLE→truncated half difference, RIGHT/BOTTOM→difference offsets,
and both offsets lie between 0 and container - content. -/
theorem calc_align_offset_correct (align : SpriteAlign)
    (large_width large_height small_width small_height : Int)
    (hw0 : 0 ≤ small_width) (hww : small_width ≤ large_width)
    (hh0 : 0 ≤ small_height) (hhh : small_height ≤ large_height) :
    calc_align_offset align large_width large_height small_width small_height =
      (specAlignX align large_width small_width,
       specAlignY align large_height small_height) ∧
    0 ≤ specAlignX align large_width small_width ∧
    specAlignX align large_width small_width ≤ large_width - small_width ∧
    0 ≤ specAlignY align large_height small_height ∧
    specAlignY align large_height small_height ≤ large_height - small_height := by
  obtain ⟨hx1, hx2⟩ := tdiv2_bounds (large_width - small_width) (by omega)
  obtain ⟨hy1, hy2⟩ := tdiv2_bounds (large_height - small_height) (by omega)
  cases align <;>
    refine ⟨rfl, ?_, ?_, ?_, ?_⟩ <;>
    simp only [specAlignX, specAlignY] <;>
    omega

/-- Witness for C7 at the spec's concrete example:
offset(center-center, 10, 10, 4, 4) = (3, 3). -/
theorem calc_align_offset_correct_witness :
    calc_align_offset SpriteAlign.MIDDLE_CENTER 10 10 4 4 = (3, 3) ∧
    0 ≤ specAlignX SpriteAlign.MIDDLE_CENTER 10 4 := by
  have h := calc_align_offset_correct SpriteAlign.MIDDLE_CENTER 10 10 4 4
    (by norm_num) (by norm_num) (by norm_num) (by norm_num)
  exact ⟨by decide, h.2.1⟩

-- ---------------------------------------------------------------------------
-- C1: cell box per mode
-- ---------------------------------------------------------------------------

/-- C1 (amended): the SHEET and STRIPS cell boxes agree for every policy;
the IMAGES cell box agrees with them under ROW and ALL; under INDIVIDUAL
the SHEET/STRIPS cell is (frame's own width, row's tallest frame height)
while the IMAGES cell is (frame's own width, frame's own height). -/
theorem cellBoxByMode (consistency : SpriteConsistency) (img : Img)
    (row : RowData) (global_img_widest global_img_tallest : Int) :
    sheetCell consistency img row global_img_widest global_img_tallest =
      stripsCell consistency img row global_img_widest global_img_tallest ∧
    (consistency = SpriteConsistency.ROW ∨ consistency = SpriteConsistency.ALL →
      imagesCell consistency img row global_img_widest global_img_tallest =
        sheetCell consistency img row global_img_widest global_img_tallest) ∧
    (consistency = SpriteConsistency.INDIVIDUAL →
      sheetCell consistency img row global_img_widest global_img_tallest =
        (img.width, row.img_tallest) ∧
      imagesCell consistency img row global_img_widest global_img_tallest =
        (img.width, img.height)) := by
  cases consistency <;>
    simp [sheetCell, stripsCell, imagesCell]

/-- Counterexample for C1 as stated: under INDIVIDUAL, for a 64×64 frame in
a row whose tallest frame is 96 pixels, SHEET mode uses the cell
(64, 96) while IMAGES mode uses (64, 64), so the cell box is not determined
identically in all three output modes. -/
theorem cellBoxByMode_cex :
    sheetCell SpriteConsistency.INDIVIDUAL
      { width := 64, height := 64, mode := "RGBA", format := "PNG" }
      { label_text := "A", label_width := 0, label_height := 0,
        label_offset := (0, 0),
        images := [{ width := 64, height := 64, mode := "RGBA", format := "PNG" },
                   { width := 64, height := 96, mode := "RGBA", format := "PNG" }],
        img_accum_width := 128, img_widest := 64, img_tallest := 96 }
      64 96 = (64, 96) ∧
    imagesCell SpriteConsistency.INDIVIDUAL
      { width := 64, height := 64, mode := "RGBA", format := "PNG" }
      { label_text := "A", label_width := 0, label_height := 0,
        label_offset := (0, 0),
        images := [{ width := 64, height := 64, mode := "RGBA", format := "PNG" },
                   { width := 64, height := 96, mode := "RGBA", format := "PNG" }],
        img_accum_width := 128, img_widest := 64, img_tallest := 96 }
      64 96 = (64, 64) ∧
    ((64, 96) : Int × Int) ≠ (64, 64) := by
  exact ⟨rfl, rfl, by decide⟩

/-- Witness for C1 (amended) at a concrete instance: under ROW the IMAGES
cell agrees with the SHEET cell. -/
theorem cellBoxByMode_witness :
    imagesCell SpriteConsistency.ROW
      { width := 5, height := 6, mode := "RGBA", format := "PNG" }
      { label_text := "A", label_width := 0, label_height := 0,
        label_offset := (0, 0),
        images := [{ width := 5, height := 6, mode := "RGBA", format := "PNG" }],
        img_accum_width := 5, img_widest := 5, img_tallest := 6 }
      7 9 =
    sheetCell SpriteConsistency.ROW
      { width := 5, height := 6, mode := "RGBA", format := "PNG" }
      { label_text := "A", label_width := 0, label_height := 0,
        label_offset := (0, 0),
        images := [{ width := 5, height := 6, mode := "RGBA", format := "PNG" }],
        img_accum_width := 5, img_widest := 5, img_tallest := 6 }
      7 9 :=
  (cellBoxByMode SpriteConsistency.ROW
    { width := 5, height := 6, mode := "RGBA", format := "PNG" }
    { label_text := "A", label_width := 0, label_height := 0,
      label_offset := (0, 0),
      images := [{ width := 5, height := 6, mode := "RGBA", format := "PNG" }],
      img_accum_width := 5, img_widest := 5, img_tallest := 6 }
    7 9).2.1 (Or.inl rfl)

-- ---------------------------------------------------------------------------
-- C5: zero action subfolders
-- ---------------------------------------------------------------------------

/-- C5 (amended): with zero action subfolders nothing like a
ConfigurationError is raised.  SHEET mode fails with the IndexError from
reading rows[0] of the empty row list, before any output is produced;
STRIPS and IMAGES modes raise no error and save no files at all. -/
theorem emptyInputBehaviour (now : Nat) (getbbox : String → Int × Int × Int × Int)
    (param : AssembleParam) :
    (param.combine_mode = CombineMode.SHEET →
      assemble_images now getbbox param [] =
        Except.error "IndexError: list index out of range") ∧
    (param.combine_mode = CombineMode.STRIPS →
      assemble_images now getbbox param [] =
        Except.ok (AssembleOutput.strips [])) ∧
    (param.combine_mode = CombineMode.IMAGES →
      assemble_images now getbbox param [] =
        Except.ok (AssembleOutput.images [])) := by
  refine ⟨fun h => ?_, fun h => ?_, fun h => ?_⟩ <;>
    simp [assemble_images, assembleRows, assembleRowsGo, h, combine_into_sheet,
      combine_into_strips, stripsGo, combine_into_images]

/-- Counterexample for C5 as stated: on an empty action-folder list,
STRIPS mode succeeds with zero strip files instead of failing, and SHEET
mode fails with an IndexError, not a ConfigurationError. -/
theorem emptyInputBehaviour_cex :
    assemble_images 0 zeroBbox
      { baseParam with combine_mode := CombineMode.STRIPS } [] =
      Except.ok (AssembleOutput.strips []) ∧
    assemble_images 0 zeroBbox baseParam [] =
      Except.error "IndexError: list index out of range" := by
  exact ⟨rfl, rfl⟩

/-- Witness for C5 (amended) applying it in all three modes. -/
theorem emptyInputBehaviour_witness :
    assemble_images 0 zeroBbox baseParam [] =
      Except.error "IndexError: list index out of range" ∧
    assemble_images 0 zeroBbox
      { baseParam with combine_mode := CombineMode.STRIPS } [] =
      Except.ok (AssembleOutput.strips []) ∧
    assemble_images 0 zeroBbox
      { baseParam with combine_mode := CombineMode.IMAGES } [] =
      Except.ok (AssembleOutput.images []) :=
  ⟨(emptyInputBehaviour 0 zeroBbox baseParam).1 rfl,
   (emptyInputBehaviour 0 zeroBbox
      { baseParam with combine_mode := CombineMode.STRIPS }).2.1 rfl,
   (emptyInputBehaviour 0 zeroBbox
      { baseParam with combine_mode := CombineMode.IMAGES }).2.2 rfl⟩

-- ---------------------------------------------------------------------------
-- C8: canvas pixel mode
-- ---------------------------------------------------------------------------

/-- C8 (amended): the SHEET canvas mode is the mode of the first image of
the first row when that row has images; a first row without images gets
DEFAULT_COLOR_MODE; but an empty row list — the case when no frame images
exist anywhere — fails with an IndexError at rows[0] instead. -/
theorem sheetCanvasMode (now : Nat) (param : AssembleParam)
    (global_img_widest global_img_tallest : Int) :
    (combine_into_sheet now param [] global_img_widest global_img_tallest =
      Except.error "IndexError: list index out of range") ∧
    (∀ (row0 : RowData) (rest : List RowData) (im : Img) (tl : List Img),
      row0.images = im :: tl →
      (combine_into_sheet now param (row0 :: rest)
          global_img_widest global_img_tallest).map (fun pr => pr.1.mode) =
        Except.ok im.mode) ∧
    (∀ (row0 : RowData) (rest : List RowData),
      row0.images = [] →
      (combine_into_sheet now param (row0 :: rest)
          global_img_widest global_img_tallest).map (fun pr => pr.1.mode) =
        Except.ok DEFAULT_COLOR_MODE) := by
  refine ⟨rfl, fun row0 rest im tl h => ?_, fun row0 rest h => ?_⟩ <;>
    simp [combine_into_sheet, h, Except.map]

/-- Counterexample for C8 as stated: one action folder with zero frame
images (so no frame images exist anywhere, max_frames_per_row = 1), SHEET
mode: assembly fails with an IndexError instead of defaulting the canvas
to RGBA. -/
theorem sheetCanvasMode_cex :
    assemble_images 0 zeroBbox { baseParam with max_frames_per_row := 1 }
      [{ label := "A", images := [] }] =
      Except.error "IndexError: list index out of range" := by
  rfl

/-- Witness for C8 (amended): a first row whose first image has mode "RGB"
yields an "RGB" canvas. -/
theorem sheetCanvasMode_witness :
    (combine_into_sheet 0 baseParam
        [{ label_text := "A", label_width := 0, label_height := 0,
           label_offset := (0, 0),
           images := [{ width := 3, height := 3, mode := "RGB", format := "PNG" }],
           img_accum_width := 3, img_widest := 3, img_tallest := 3 }] 3 3).map
        (fun pr => pr.1.mode) =
      Except.ok ({ width := 3, height := 3, mode := "RGB", format := "PNG" } : Img).mode :=
  (sheetCanvasMode 0 baseParam 3 3).2.1
    { label_text := "A", label_width := 0, label_height := 0,
      label_offset := (0, 0),
      images := [{ width := 3, height := 3, mode := "RGB", format := "PNG" }],
      img_accum_width := 3, img_widest := 3, img_tallest := 3 }
    [] { width := 3, height := 3, mode := "RGB", format := "PNG" } [] rfl

-- ---------------------------------------------------------------------------
-- C9: SHEET-mode determinism
-- ---------------------------------------------------------------------------

/-- C9: SHEET-mode assembly is deterministic: the canvas (dimensions, pixel
mode, and the ordered label/paste operations) is independent of the clock
value that feeds the timestamped prints — two runs on identical inputs
produce identical canvases; only the log can differ. -/
theorem sheetDeterminism (t1 t2 : Nat) (getbbox : String → Int × Int × Int × Int)
    (param : AssembleParam) (action_folders : List ActionFolder)
    (hmode : param.combine_mode = CombineMode.SHEET) :
    (assemble_images t1 getbbox param action_folders).map canvasOf =
      (assemble_images t2 getbbox param action_folders).map canvasOf := by
  unfold assemble_images
  cases h : assembleRows getbbox param action_folders with
  | error e => simp
  | ok triple =>
    obtain ⟨rows, gw, gt⟩ := triple
    cases rows with
    | nil => simp [hmode, combine_into_sheet]
    | cons row0 rest => simp [hmode, combine_into_sheet, canvasOf, Except.map]

-- Concrete fixtures for the spec's end-to-end SHEET scenario and for the
-- height-overflow run.

def img64 : Img := { width := 64, height := 64, mode := "RGBA", format := "PNG" }

def img6496 : Img := { width := 64, height := 96, mode := "RGBA", format := "PNG" }

/-- Parameters of the spec's end-to-end scenario: all margins 10, font
disabled, ROW consistency, BOTTOM_CENTER alignment, SHEET mode. -/
def scenarioParam : AssembleParam :=
  { font_size := 0
    surrounding_margin := (10, 10, 10, 10)
    label_margin := 10
    image_margin := 10
    consistency := SpriteConsistency.ROW
    align := SpriteAlign.BOTTOM_CENTER
    combine_mode := CombineMode.SHEET
    max_frames_per_row := 0 }

/-- Input of the spec's end-to-end scenario: 0_Walk with two 64×64 frames
and 1_Jump with one 64×96 frame. -/
def scenarioFolders : List ActionFolder :=
  [{ label := "Walk", images := [img64, img64] },
   { label := "Jump", images := [img6496] }]

/-- The rows the row builder produces for the scenario. -/
def scenarioRows : List RowData :=
  [{ label_text := "Walk", label_width := 0, label_height := 0,
     label_offset := (0, 0), images := [img64, img64],
     img_accum_width := 128, img_widest := 64, img_tallest := 64 },
   { label_text := "Jump", label_width := 0, label_height := 0,
     label_offset := (0, 0), images := [img6496],
     img_accum_width := 64, img_widest := 64, img_tallest := 96 }]

/-- Witness for C9 at the end-to-end scenario with two clock values. -/
theorem sheetDeterminism_witness :
    (assemble_images 0 zeroBbox scenarioParam scenarioFolders).map canvasOf =
      (assemble_images 1 zeroBbox scenarioParam scenarioFolders).map canvasOf :=
  sheetDeterminism 0 1 zeroBbox scenarioParam scenarioFolders rfl

-- ---------------------------------------------------------------------------
-- C3: SHEET canvas height and frame containment
-- ---------------------------------------------------------------------------

/-- C3: evaluation of the code at the failing input.  Two actions with one
64×64 and one 10×10 frame, font_size 0, surrounding margins 0, label_margin
15, image_margin 0, ROW consistency, TOP_LEFT alignment, SHEET mode: the
dimension pass computes canvas height 74 = 64 + 10 (no label terms, font
disabled), but the paint pass still advances by label_margin after the
first row, so the two pasted frames have bottom edges 64 and 89 — the
second frame ends 15 pixels below the canvas. -/
theorem sheetHeightOverflow :
    (assemble_images 0 zeroBbox
        { baseParam with label_margin := 15, consistency := SpriteConsistency.ROW }
        [{ label := "A", images := [img64] },
         { label := "B", images := [{ width := 10, height := 10, mode := "RGBA", format := "PNG" }] }]).map
        (fun out => (canvasOf out).map (fun s =>
          (s.height, s.pastes.map (fun pa => pa.y + pa.img.height)))) =
      Except.ok (some (74, [64, 89])) := by
  rfl

-- ---------------------------------------------------------------------------
-- C4: STRIPS filename disambiguation
-- ---------------------------------------------------------------------------

theorem string_append_merge (s a b c : String) (h : a.data ++ b.data = c.data) :
    s ++ a ++ b = s ++ c := by
  apply String.ext
  rw [String.data_append, String.data_append, String.data_append,
    List.append_assoc, h]

theorem string_append_ne_of_data_ne (s a b : String) (hab : a.data ≠ b.data) :
    s ++ a ≠ s ++ b := by
  intro h
  apply hab
  have h2 := congrArg String.data h
  rw [String.data_append, String.data_append] at h2
  exact List.append_cancel_left h2

/-- C4 (amended): in STRIPS mode, two rows sharing a non-empty label L (both
with png frames) are saved as `L.png` and `L_2.png` — the second occurrence
of a label gets the numeric suffix 2, the counter value after the bump —
and the two filenames differ, so neither strip overwrites the other. -/
theorem stripsFilenameSuffix (param : AssembleParam)
    (global_img_widest global_img_tallest : Int) (L : String) (hL : L ≠ "")
    (r1 r2 : RowData) (h1 : r1.label_text = L) (h2 : r2.label_text = L)
    (e1 : stripExt r1 = "png") (e2 : stripExt r2 = "png") :
    (combine_into_strips param [r1, r2] global_img_widest global_img_tallest).map
        (fun f => f.filename) =
      [L ++ ".png", L ++ "_2.png"] ∧
    L ++ ".png" ≠ L ++ "_2.png" := by
  refine ⟨?_, string_append_ne_of_data_ne L ".png" "_2.png" (by decide)⟩
  have t2 : toString (0 + 1 + 1) = "2" := rfl
  simp [combine_into_strips, stripsGo, h1, h2, if_neg hL, e1, e2, t2]
  refine ⟨string_append_merge L "." "png" ".png" (by decide), ?_⟩
  rw [string_append_merge L "_" "2" "_2" (by decide),
    string_append_merge L "_2" "." "_2." (by decide),
    string_append_merge L "_2." "png" "_2.png" (by decide)]

/-- A row labeled "Idle" with one 16×16 PNG frame. -/
def idleRow : RowData :=
  { label_text := "Idle", label_width := 20, label_height := 10,
    label_offset := (0, 0),
    images := [{ width := 16, height := 16, mode := "RGBA", format := "PNG" }],
    img_accum_width := 16, img_widest := 16, img_tallest := 16 }

/-- Counterexample for C4 as stated: two rows both labeled "Idle" yield
`Idle.png` and `Idle_2.png` — the second strip is not saved as `Idle_1.png`:
the counter is bumped to 2 before the suffix is formatted. -/
theorem stripsFilenameSuffix_cex :
    (combine_into_strips baseParam [idleRow, idleRow] 16 16).map
        (fun f => f.filename) =
      ["Idle.png", "Idle_2.png"] ∧
    ("Idle_2.png" : String) ≠ "Idle_1.png" := by
  exact ⟨rfl, by decide⟩

/-- Witness for C4 (amended) at the two-Idle run. -/
theorem stripsFilenameSuffix_witness :
    (combine_into_strips baseParam [idleRow, idleRow] 16 16).map
        (fun f => f.filename) =
      ["Idle" ++ ".png", "Idle" ++ "_2.png"] ∧
    ("Idle" : String) ++ ".png" ≠ "Idle" ++ "_2.png" :=
  stripsFilenameSuffix baseParam 16 16 "Idle" (by decide) idleRow idleRow
    rfl rfl (by decide) (by decide)

-- ---------------------------------------------------------------------------
-- Chunking lemmas for the row builder
-- ---------------------------------------------------------------------------

theorem pyRange_zero (step : Nat) : pyRange 0 step = [] := by
  unfold pyRange
  rcases Nat.eq_zero_or_pos step with h | h
  · subst h
    rfl
  · rw [Nat.div_eq_of_lt (by omega)]
    rfl

theorem ceil_div_succ (n m : Nat) (hn : 0 < n) (hm : 0 < m) :
    (n + m - 1) / m = (n - m + m - 1) / m + 1 := by
  rcases le_or_lt n m with h | h
  · have e1 : n + m - 1 = (n - 1) + m := by omega
    have e2 : n - m = 0 := by omega
    rw [e1, Nat.add_div_right _ hm, Nat.div_eq_of_lt (by omega), e2]
    rw [Nat.zero_add, Nat.div_eq_of_lt (by omega)]
  · have e1 : n + m - 1 = (n - 1) + m := by omega
    have e2 : n - m + m - 1 = n - 1 := by omega
    rw [e1, Nat.add_div_right _ hm, e2]

theorem pyRange_cons (n m : Nat) (hn : 0 < n) (hm : 0 < m) :
    pyRange n m = 0 :: (pyRange (n - m) m).map (fun i => i + m) := by
  unfold pyRange
  rw [ceil_div_succ n m hn hm, List.range_succ_eq_map]
  rw [List.map_cons, List.map_map, List.map_map]
  simp only [Nat.zero_mul]
  congr 1
  apply List.map_congr_left
  intro j _
  simp only [Function.comp_apply]
  rw [Nat.succ_mul]

theorem pyRange_self (n : Nat) (hn : 0 < n) : pyRange n n = [0] := by
  unfold pyRange
  have e1 : n + n - 1 = (n - 1) + n := by omega
  rw [e1, Nat.add_div_right _ hn, Nat.div_eq_of_lt (by omega)]
  rw [show 0 + 1 = 1 from rfl, List.range_succ]
  simp

theorem pyRange_mem_lt (n m : Nat) (hm : 0 < m) :
    ∀ i ∈ pyRange n m, i < n := by
  intro i hi
  unfold pyRange at hi
  obtain ⟨j, hj, rfl⟩ := List.mem_map.mp hi
  rw [List.mem_range] at hj
  have h2 : (j + 1) * m ≤ ((n + m - 1) / m) * m :=
    Nat.mul_le_mul_right m hj
  have h3 : ((n + m - 1) / m) * m ≤ n + m - 1 := Nat.div_mul_le_self _ m
  have h4 : (j + 1) * m = j * m + m := Nat.succ_mul j m
  omega

theorem pyRange_min_map :
    ∀ (n m : Nat), 0 < m →
      (pyRange n m).map (fun i => min m (n - i)) =
        List.replicate (n / m) m ++ (if n % m = 0 then [] else [n % m]) := by
  intro n
  induction n using Nat.strong_induction_on with
  | _ n ih =>
    intro m hm
    rcases Nat.eq_zero_or_pos n with hn | hn
    · subst hn
      rw [pyRange_zero]
      simp
    · rw [pyRange_cons n m hn hm, List.map_cons, List.map_map]
      have hfun : ((fun i => min m (n - i)) ∘ (fun i => i + m)) =
          (fun i => min m (n - m - i)) := by
        funext i
        simp only [Function.comp]
        omega
      rw [hfun, ih (n - m) (by omega) m hm]
      rcases Nat.lt_or_ge n m with h | h
      · have e0 : n - m = 0 := by omega
        have e1 : n / m = 0 := Nat.div_eq_of_lt h
        have e2 : n % m = n := Nat.mod_eq_of_lt h
        rw [e0, e1, e2, Nat.zero_div, Nat.zero_mod]
        simp only [List.replicate, List.nil_append, if_true, Nat.sub_zero]
        rw [if_neg (by omega)]
        have : min m n = n := by omega
        rw [this]
      · have e3 : min m (n - 0) = m := by omega
        have hmn : n = (n - m) + m := by omega
        have e4 : n / m = (n - m) / m + 1 := by
          conv_lhs => rw [hmn]
          rw [Nat.add_div_right _ hm]
        have e5 : n % m = (n - m) % m := by
          conv_lhs => rw [hmn]
          rw [Nat.add_mod_right]
        rw [e3, e4, e5, List.replicate_succ, List.cons_append]

theorem pyRange_chunks_join {α : Type} :
    ∀ (n : Nat) (l : List α), l.length = n → ∀ (m : Nat), 0 < m →
      (pyRange l.length m).flatMap (fun i => (l.drop i).take m) = l := by
  intro n
  induction n using Nat.strong_induction_on with
  | _ n ih =>
    intro l hl m hm
    rcases Nat.eq_zero_or_pos n with hn | hn
    · subst hn
      rw [List.length_eq_zero] at hl
      subst hl
      simp [pyRange_zero]
    · rw [hl, pyRange_cons n m hn hm, List.flatMap_cons, List.flatMap_map,
        List.drop_zero]
      have hlen : (l.drop m).length = n - m := by rw [List.length_drop, hl]
      have hfun : (fun i => ((l.drop (i + m)).take m)) =
          (fun i => (((l.drop m).drop i).take m)) := by
        funext i
        rw [List.drop_drop]
        congr 2
        omega
      rw [hfun, show n - m = (l.drop m).length from hlen.symm,
        ih (n - m) (by omega) (l.drop m) hlen m hm, List.take_append_drop]

theorem chunk_ne_nil {α : Type} (l : List α) (m i : Nat) (hm : 0 < m)
    (hi : i < l.length) : (l.drop i).take m ≠ [] := by
  intro h
  have h2 : ((l.drop i).take m).length = min m (l.length - i) := by
    rw [List.length_take, List.length_drop]
  rw [h] at h2
  simp at h2
  omega

-- ---------------------------------------------------------------------------
-- actionRows characterization
-- ---------------------------------------------------------------------------

theorem actionRows_pos (param : AssembleParam) (label_text : String)
    (label_width label_height : Int) (label_offset : Int × Int) (l : List Img)
    (hpos : 0 < param.max_frames_per_row) :
    actionRows param label_text label_width label_height label_offset l =
      Except.ok ((pyRange l.length param.max_frames_per_row.toNat).map (fun chunk_idx =>
        mkRowData label_text label_width label_height label_offset (chunk_idx == 0)
          ((l.drop chunk_idx).take param.max_frames_per_row.toNat))) := by
  simp only [actionRows]
  rw [if_pos hpos, if_neg (by omega)]

theorem actionRows_unlimited (param : AssembleParam) (label_text : String)
    (label_width label_height : Int) (label_offset : Int × Int) (l : List Img)
    (hz : ¬ 0 < param.max_frames_per_row) (hl : l ≠ []) :
    actionRows param label_text label_width label_height label_offset l =
      Except.ok [mkRowData label_text label_width label_height label_offset true l] := by
  have hlen : 0 < l.length := List.length_pos.mpr hl
  simp only [actionRows]
  rw [if_neg hz, if_neg (by omega), Int.toNat_natCast, pyRange_self l.length hlen]
  simp [List.take_length]

theorem actionRows_range_err (param : AssembleParam) (label_text : String)
    (label_width label_height : Int) (label_offset : Int × Int)
    (hz : ¬ 0 < param.max_frames_per_row) :
    actionRows param label_text label_width label_height label_offset [] =
      Except.error "ValueError: range() arg 3 must not be zero" := by
  simp only [actionRows]
  rw [if_neg hz]
  simp

theorem actionRows_images_ne_nil (param : AssembleParam) (label_text : String)
    (label_width label_height : Int) (label_offset : Int × Int) (l : List Img)
    (rows : List RowData)
    (h : actionRows param label_text label_width label_height label_offset l =
      Except.ok rows) :
    ∀ r ∈ rows, r.images ≠ [] := by
  simp only [actionRows] at h
  by_cases hc : (if param.max_frames_per_row > 0 then param.max_frames_per_row
      else (l.length : Int)) = 0
  · rw [if_pos hc] at h
    exact absurd h (by simp)
  · rw [if_neg hc] at h
    have hmpos : 0 < (if param.max_frames_per_row > 0 then param.max_frames_per_row
        else (l.length : Int)).toNat := by
      by_cases hp : param.max_frames_per_row > 0
      · rw [if_pos hp]
        omega
      · rw [if_neg hp]
        rw [if_neg hp] at hc
        omega
    injection h with h
    subst h
    intro r hr
    obtain ⟨i, hi, rfl⟩ := List.mem_map.mp hr
    have hilt := pyRange_mem_lt l.length _ hmpos i hi
    exact chunk_ne_nil l _ i hmpos hilt

theorem assembleRowsGo_images_ne_nil (getbbox : String → Int × Int × Int × Int)
    (param : AssembleParam) :
    ∀ (folders : List ActionFolder) (acc : List RowData) (gw gt : Int)
      (rows : List RowData) (gw' gt' : Int),
      (∀ r ∈ acc, r.images ≠ []) →
      assembleRowsGo getbbox param folders acc gw gt = Except.ok (rows, gw', gt') →
      ∀ r ∈ rows, r.images ≠ [] := by
  intro folders
  induction folders with
  | nil =>
    intro acc gw gt rows gw' gt' hacc h
    simp only [assembleRowsGo, Except.ok.injEq, Prod.mk.injEq] at h
    obtain ⟨h1, h2, h3⟩ := h
    subst h1
    exact hacc
  | cons f fs ih =>
    intro acc gw gt rows gw' gt' hacc h
    simp only [assembleRowsGo] at h
    split at h
    · exact absurd h (by simp)
    · rename_i newRows heq
      refine ih _ _ _ _ _ _ (fun r hr => ?_) h
      rcases List.mem_append.mp hr with h1 | h2
      · exact hacc r h1
      · exact actionRows_images_ne_nil param f.label _ _ _ f.images newRows heq r h2

-- ---------------------------------------------------------------------------
-- C10: empty action folders and row nonemptiness
-- ---------------------------------------------------------------------------

/-- C10: an action folder with zero frame files makes the chunking loop
raise (range step 0) when max_frames_per_row = 0, and contributes no rows
when max_frames_per_row > 0; consequently every RowData the builder ever
constructs contains at least one image. -/
theorem emptyActionBehaviour (param : AssembleParam) (label_text : String)
    (label_width label_height : Int) (label_offset : Int × Int) :
    (param.max_frames_per_row = 0 →
      actionRows param label_text label_width label_height label_offset [] =
        Except.error "ValueError: range() arg 3 must not be zero") ∧
    (0 < param.max_frames_per_row →
      actionRows param label_text label_width label_height label_offset [] =
        Except.ok []) ∧
    (∀ (getbbox : String → Int × Int × Int × Int) (folders : List ActionFolder)
      (rows : List RowData) (gw gt : Int),
      assembleRows getbbox param folders = Except.ok (rows, gw, gt) →
      ∀ r ∈ rows, r.images ≠ []) := by
  refine ⟨fun hz => actionRows_range_err param label_text label_width label_height
      label_offset (by omega),
    fun hpos => ?_,
    fun getbbox folders rows gw gt h =>
      assembleRowsGo_images_ne_nil getbbox param folders [] 0 0 rows gw gt
        (by simp) h⟩
  rw [actionRows_pos param label_text label_width label_height label_offset [] hpos]
  simp [pyRange_zero]

/-- Witness for C10: the ValueError at a concrete empty action with limit 0,
the empty row list at limit 3, and a concrete builder-produced row that is
nonempty. -/
theorem emptyActionBehaviour_witness :
    actionRows baseParam "X" 0 0 (0, 0) [] =
      Except.error "ValueError: range() arg 3 must not be zero" ∧
    actionRows { baseParam with max_frames_per_row := 3 } "X" 0 0 (0, 0) [] =
      Except.ok [] ∧
    ({ label_text := "Walk", label_width := 0, label_height := 0,
       label_offset := (0, 0), images := [img64, img64],
       img_accum_width := 128, img_widest := 64, img_tallest := 64 } :
        RowData).images ≠ [] :=
  ⟨(emptyActionBehaviour baseParam "X" 0 0 (0, 0)).1 rfl,
   (emptyActionBehaviour { baseParam with max_frames_per_row := 3 } "X" 0 0 (0, 0)).2.1
     (by decide),
   (emptyActionBehaviour baseParam "X" 0 0 (0, 0)).2.2 zeroBbox scenarioFolders
     scenarioRows 64 96 (by decide)
     { label_text := "Walk", label_width := 0, label_height := 0,
       label_offset := (0, 0), images := [img64, img64],
       img_accum_width := 128, img_widest := 64, img_tallest := 64 }
     (by decide)⟩

-- ---------------------------------------------------------------------------
-- C6: row partitioning
-- ---------------------------------------------------------------------------

/-- C6 (amended): for an action with n frames, a positive max_frames_per_row
m partitions them into ceil(n/m) rows whose sizes are m except a final row
of n mod m when the remainder is nonzero, preserving the frame sequence,
with the label and its metrics only on the first row and empty label with
zero metrics on the others; max_frames_per_row = 0 yields one single row
holding all frames provided the action has at least one frame (an action
with zero frames raises instead, see the range step error). -/
theorem rowBuilderPartition (param : AssembleParam) (label_text : String)
    (label_width label_height : Int) (label_offset : Int × Int) (l : List Img) :
    (0 < param.max_frames_per_row →
      ∃ rows,
        actionRows param label_text label_width label_height label_offset l =
          Except.ok rows ∧
        rows.length =
          (l.length + param.max_frames_per_row.toNat - 1) /
            param.max_frames_per_row.toNat ∧
        rows.map (fun r => r.images.length) =
          List.replicate (l.length / param.max_frames_per_row.toNat)
              param.max_frames_per_row.toNat ++
            (if l.length % param.max_frames_per_row.toNat = 0 then []
             else [l.length % param.max_frames_per_row.toNat]) ∧
        rows.flatMap (fun r => r.images) = l ∧
        (∀ r ∈ rows.take 1,
          r.label_text = label_text ∧ r.label_width = label_width ∧
          r.label_height = label_height ∧ r.label_offset = label_offset) ∧
        (∀ r ∈ rows.tail,
          r.label_text = "" ∧ r.label_width = 0 ∧ r.label_height = 0 ∧
          r.label_offset = (0, 0))) ∧
    (param.max_frames_per_row = 0 → l ≠ [] →
      actionRows param label_text label_width label_height label_offset l =
        Except.ok
          [mkRowData label_text label_width label_height label_offset true l]) := by
  constructor
  · intro hpos
    have hmtpos : 0 < param.max_frames_per_row.toNat := by omega
    refine ⟨_, actionRows_pos param label_text label_width label_height label_offset
      l hpos, ?_, ?_, ?_, ?_, ?_⟩
    · rw [List.length_map]
      unfold pyRange
      rw [List.length_map, List.length_range]
    · rw [List.map_map]
      have hfun : ((fun r => r.images.length) ∘ (fun chunk_idx =>
          mkRowData label_text label_width label_height label_offset (chunk_idx == 0)
            ((l.drop chunk_idx).take param.max_frames_per_row.toNat))) =
          (fun i => min param.max_frames_per_row.toNat (l.length - i)) := by
        funext i
        simp only [Function.comp_apply, mkRowData]
        rw [List.length_take, List.length_drop]
      rw [hfun, pyRange_min_map l.length param.max_frames_per_row.toNat hmtpos]
    · rw [List.flatMap_map]
      have hfun : (fun i =>
          (mkRowData label_text label_width label_height label_offset (i == 0)
            ((l.drop i).take param.max_frames_per_row.toNat)).images) =
          (fun i => (l.drop i).take param.max_frames_per_row.toNat) := by
        funext i
        simp only [mkRowData]
      rw [hfun, pyRange_chunks_join l.length l rfl param.max_frames_per_row.toNat hmtpos]
    · intro r hr
      by_cases hl0 : l = []
      · subst hl0
        simp [pyRange_zero] at hr
      · have hlen : 0 < l.length := List.length_pos.mpr hl0
        rw [pyRange_cons l.length param.max_frames_per_row.toNat hlen hmtpos] at hr
        simp only [List.map_cons, List.take_succ_cons, List.take_zero,
          List.mem_singleton] at hr
        subst hr
        simp [mkRowData]
    · intro r hr
      by_cases hl0 : l = []
      · subst hl0
        simp [pyRange_zero] at hr
      · have hlen : 0 < l.length := List.length_pos.mpr hl0
        rw [pyRange_cons l.length param.max_frames_per_row.toNat hlen hmtpos] at hr
        simp only [List.map_cons, List.tail_cons, List.map_map] at hr
        obtain ⟨i, hi, rfl⟩ := List.mem_map.mp hr
        have hne : ((i + param.max_frames_per_row.toNat) == 0) = false := by
          rw [beq_eq_false_iff_ne]
          omega
        simp [mkRowData, Function.comp_apply, hne]
        refine ⟨?_, ?_, ?_, ?_⟩ <;> intro h1 h2 <;> exact absurd hpos (by omega)
  · intro hz hl
    exact actionRows_unlimited param label_text label_width label_height label_offset
      l (by omega) hl

/-- Counterexample for C6 as stated: an action with zero frames and
max_frames_per_row = 0 does not yield one single row — the chunking step
size becomes zero and the builder raises a ValueError. -/
theorem rowBuilderPartition_cex :
    actionRows baseParam "Idle" 0 0 (0, 0) [] =
      Except.error "ValueError: range() arg 3 must not be zero" := by
  rfl

/-- Witness for C6 (amended): 7 frames with max_frames_per_row = 3 produce
exactly 3 rows of sizes [3, 3, 1], label only on the first. -/
theorem rowBuilderPartition_witness :
    ∃ rows,
      actionRows { baseParam with max_frames_per_row := 3 } "Walk" 5 7 (0, -2)
        (List.replicate 7 img64) = Except.ok rows ∧
      rows.length = 3 ∧
      rows.map (fun r => r.images.length) = [3, 3, 1] ∧
      (∀ r ∈ rows.take 1, r.label_text = "Walk") ∧
      (∀ r ∈ rows.tail, r.label_text = "") := by
  obtain ⟨rows, h1, h2, h3, h4, h5, h6⟩ :=
    (rowBuilderPartition { baseParam with max_frames_per_row := 3 } "Walk" 5 7
      (0, -2) (List.replicate 7 img64)).1 (by decide)
  refine ⟨rows, h1, ?_, ?_, fun r hr => (h5 r hr).1, fun r hr => (h6 r hr).1⟩
  · rw [h2]
    decide
  · rw [h3]
    decide

-- ---------------------------------------------------------------------------
-- C2: SHEET canvas width
-- ---------------------------------------------------------------------------

theorem foldl_fst_proj {α : Type} (step : Int × Int × Int → α → Int × Int × Int)
    (stepW : Int → α → Int)
    (hstep : ∀ acc a, (step acc a).1 = stepW acc.1 a) :
    ∀ (l : List α) (acc : Int × Int × Int),
      (l.foldl step acc).1 = l.foldl stepW acc.1 := by
  intro l
  induction l with
  | nil => intro acc; rfl
  | cons a t ih =>
    intro acc
    rw [List.foldl_cons, List.foldl_cons, ih, hstep]

theorem foldl_congr_mem {α β : Type} (f g : β → α → β) :
    ∀ (l : List α) (b : β), (∀ a ∈ l, ∀ x, f x a = g x a) →
      l.foldl f b = l.foldl g b := by
  intro l
  induction l with
  | nil => intro b _; rfl
  | cons a t ih =>
    intro b h
    rw [List.foldl_cons, List.foldl_cons, h a (by simp),
      ih _ (fun a' ha' x => h a' (by simp [ha']) x)]

/-- The width component of the dimension loop is the plain width fold. -/
theorem sheetDimsCore_fst (param : AssembleParam) (rows : List RowData)
    (global_img_widest global_img_tallest : Int) :
    (sheetDimsCore param rows global_img_widest global_img_tallest).1 =
      rows.foldl (fun w row =>
        max (max w (sheetRowExtent param row global_img_widest global_img_tallest).1)
          row.label_width) 0 := by
  unfold sheetDimsCore
  exact foldl_fst_proj _ _ (fun acc a => rfl) rows (0, 0, 0)

/-- The code's per-row width equals the spec's cell-width sum plus gaps. -/
theorem sheetRowExtent_fst_eq (param : AssembleParam) (row : RowData)
    (global_img_widest global_img_tallest : Int)
    (hacc : row.img_accum_width = (row.images.map (fun im => im.width)).sum) :
    (sheetRowExtent param row global_img_widest global_img_tallest).1 =
      specCellWidthSum param row global_img_widest global_img_tallest +
        param.image_margin * ((row.images.length : Int) - 1) := by
  cases hc : param.consistency with
  | INDIVIDUAL =>
    simp [sheetRowExtent, specCellWidthSum, sheetCell, hc, hacc]
  | ROW =>
    simp [sheetRowExtent, specCellWidthSum, sheetCell, hc]
    ring
  | ALL =>
    simp [sheetRowExtent, specCellWidthSum, sheetCell, hc]
    ring

/-- C2: for every non-empty row list with consistent accumulated widths and
nonnegative label widths, the SHEET canvas width equals the spec's formula:
max over rows of (cell-width sum + inter-image gaps, compared against the
label width) plus the left and right surrounding margins. -/
theorem sheetWidthFormula (param : AssembleParam) (rows : List RowData)
    (global_img_widest global_img_tallest : Int) (hne : rows ≠ [])
    (hgood : ∀ r ∈ rows,
      r.img_accum_width = (r.images.map (fun im => im.width)).sum ∧
      0 ≤ r.label_width) :
    (sheetDims param rows global_img_widest global_img_tallest).1 =
      specSheetWidth param rows global_img_widest global_img_tallest := by
  have hcore : (sheetDimsCore param rows global_img_widest global_img_tallest).1 =
      maxListInt (rows.map (fun row =>
        specRowWidth param row global_img_widest global_img_tallest)) := by
    rw [sheetDimsCore_fst]
    obtain ⟨r0, rest, rfl⟩ : ∃ r0 rest, rows = r0 :: rest := by
      cases rows with
      | nil => exact absurd rfl hne
      | cons a t => exact ⟨a, t, rfl⟩
    rw [List.map_cons]
    simp only [maxListInt, List.foldl_cons]
    have h0 : max (max 0 (sheetRowExtent param r0 global_img_widest global_img_tallest).1)
        r0.label_width =
        specRowWidth param r0 global_img_widest global_img_tallest := by
      rw [sheetRowExtent_fst_eq param r0 global_img_widest global_img_tallest
        (hgood r0 (by simp)).1]
      have hlab := (hgood r0 (by simp)).2
      unfold specRowWidth
      omega
    rw [h0, List.foldl_map]
    apply foldl_congr_mem
    intro r hr x
    rw [sheetRowExtent_fst_eq param r global_img_widest global_img_tallest
      (hgood r (by simp [hr])).1]
    unfold specRowWidth
    exact max_assoc x _ r.label_width
  simp only [sheetDims, specSheetWidth]
  rw [hcore]

/-- Witness for C2 at the spec's end-to-end scenario: two 64×64 frames and
one 64×96 frame, all margins 10, font disabled, ROW consistency: the canvas
width is 10 + 64+10+64 + 10 = 158 and matches the spec formula. -/
theorem sheetWidthFormula_witness :
    assembleRows zeroBbox scenarioParam scenarioFolders =
      Except.ok (scenarioRows, 64, 96) ∧
    (sheetDims scenarioParam scenarioRows 64 96).1 = 158 ∧
    (sheetDims scenarioParam scenarioRows 64 96).1 =
      specSheetWidth scenarioParam scenarioRows 64 96 :=
  ⟨by decide, by decide,
   sheetWidthFormula scenarioParam scenarioRows 64 96 (by decide) (by decide)⟩
